import Mathlib

/-!
Shallow embedding of the iced text-editor application in `src/main.rs`
(`first-iced-app`).  Paths are modelled as strings; the filesystem, path
parsing (`parent`, `file_name`), the current working directory and the
native save dialog are modelled as an explicit environment `Env`, since
the program only observes them through those operations.  The `update`
reducer is translated case by case from `State::update`; the asynchronous
helpers `save_file` / `save_file_as` are translated as pure functions of
the environment that additionally return the list of externally visible
effects (dialogs opened, files written) in the order they occur.
-/

namespace FirstIcedApp

/-- Externally visible effects of the asynchronous save helpers. -/
inductive Effect where
  | dialogOpened (title : String) (dir : String) (fileName : Option String)
  | fileWritten (path : String) (text : String)
deriving Repr, DecidableEq

/-- Environment: filesystem queries, path parsing, current working
directory and the native save-dialog oracle, as observed by the code.
`parent` models `Path::parent` composed with `to_path_buf`, `fileName`
models `Path::file_name` followed by the `into_string().ok()` conversion,
`currentDir` models `std::env::current_dir()` (`none` on error),
`write` models `tokio::fs::write` and `saveDialog` models the result of
`AsyncFileDialog::save_file` given the title, directory and default file
name the builder was configured with. -/
structure Env where
  isDir : String → Bool
  parent : String → Option String
  currentDir : Option String
  fileName : String → Option String
  write : String → String → Except String Unit
  saveDialog : String → String → Option String → Option String

/-- `text_editor::Content`: the document text plus a cursor position. -/
structure Content where
  text : String
  cursor : Nat × Nat
deriving Repr, DecidableEq

/-- `text_editor::Content::new()`: empty text, cursor at the origin. -/
def Content.new : Content := ⟨"", (0, 0)⟩

/-- `text_editor::Content::with_text(text)`. -/
def Content.with_text (text : String) : Content := ⟨text, (0, 0)⟩

/-- The `State` struct of the application. `error` is the `VecDeque`:
list head = front of the deque. -/
structure State where
  content : Content
  file_path : Option String
  prev_path : String
  error : List String

/-- The `Message` enum.  An edit action is modelled as the function it
performs on the editor content (`Content::perform`).  The `Arc` wrappers
around the `io::Result`s are dropped; an `io::Error` is modelled by its
display string. -/
inductive Message where
  | Edit (action : Content → Content)
  | FileOpened (result : Except String String) (path : String)
  | OpenFileDialog
  | OpenFile (handle : Option String)
  | RemoveError
  | New
  | Save
  | SaveAs
  | SavedFile (data : Option (Except String String))

/-- The `iced::Task` returned by `State::update`, abstracted to the
asynchronous operation it dispatches. -/
inductive Task where
  | none
  | performPickFile (title : String) (dir : String) (fileName : Option String)
  | performLoad (path : String)
  | performSave (filePath : Option String) (root : String) (text : String)
  | performSaveAs (root : String) (text : String) (fileName : Option String)
  | performSleepRemoveError (secs : Nat)
deriving Repr, DecidableEq

/-- The directory a file-selection dialog is configured with by
`file_select_win_builder`: the seed path itself if it is a directory,
else its parent, else `current_dir().unwrap_or_default()` (the empty
path when `current_dir` fails). -/
def dialogDir (env : Env) (path : String) : String :=
  if env.isDir path then path
  else (env.parent path).getD (env.currentDir.getD "")

/-- `file_name_opt`: the file name of an optional path, if any. -/
def file_name_opt (env : Env) (path : Option String) : Option String :=
  path.bind env.fileName

/-- `State::set_file_path`: on `Some p` update `prev_path` to `p` if it
is a directory, else to its parent, else to the current working
directory (or the default empty path); then set `file_path` to the
argument.  On `None` only `file_path` is cleared. -/
def State.set_file_path (env : Env) (s : State) (path : Option String) : State :=
  match path with
  | some p =>
      { s with
        prev_path :=
          if env.isDir p then p
          else (env.parent p).getD (env.currentDir.getD "")
        file_path := some p }
  | none => { s with file_path := none }

/-- `State::add_error`: push the text at the back of the error queue and
schedule a 4-second sleep whose completion is `Message::RemoveError`. -/
def State.add_error (s : State) (text : String) : State × Task :=
  ({ s with error := s.error ++ [text] }, Task.performSleepRemoveError 4)

mutual

/-- `save_file`: with a file path, write the text there and return the
path on success; with no file path, fall back to `save_file_as` with no
default file name. -/
def save_file (env : Env) (file_path : Option String) (root_search_path : String)
    (text : String) : Option (Except String String) × List Effect :=
  match file_path with
  | some path =>
      (some ((env.write path text).map fun _ => path), [Effect.fileWritten path text])
  | none => save_file_as env root_search_path text Option.none
termination_by if file_path.isSome then 0 else 2
decreasing_by simp

/-- `save_file_as`: open the save dialog (built by
`file_select_win_builder "Save as ..."` seeded with `file_path`); if a
path is chosen, save there via `save_file`; a cancelled dialog yields
`None`. -/
def save_file_as (env : Env) (file_path : String) (text : String)
    (file_name : Option String) : Option (Except String String) × List Effect :=
  match env.saveDialog "Save as ..." (dialogDir env file_path) file_name with
  | some chosen =>
      let r := save_file env (some chosen) file_path text
      (r.1, Effect.dialogOpened "Save as ..." (dialogDir env file_path) file_name :: r.2)
  | Option.none =>
      (Option.none, [Effect.dialogOpened "Save as ..." (dialogDir env file_path) file_name])
termination_by 1
decreasing_by simp

end

/-- `State::update`, translated case by case. -/
def update (env : Env) (s : State) (message : Message) : State × Task :=
  match message with
  | .Edit action => ({ s with content := action s.content }, Task.none)
  | .FileOpened result path =>
      match result with
      | .ok text =>
          (State.set_file_path env { s with content := Content.with_text text } (some path),
           Task.none)
      | .error e => State.add_error s ("Could not open file: " ++ e)
  | .OpenFileDialog =>
      (s, Task.performPickFile "Open file ..." (dialogDir env s.prev_path)
            (file_name_opt env s.file_path))
  | .OpenFile handle =>
      match handle with
      | some h => (s, Task.performLoad h)
      | Option.none => (s, Task.none)
  | .RemoveError => ({ s with error := s.error.tail }, Task.none)
  | .New => (State.set_file_path env { s with content := Content.new } Option.none, Task.none)
  | .Save => (s, Task.performSave s.file_path s.prev_path s.content.text)
  | .SaveAs => (s, Task.performSaveAs s.prev_path s.content.text (file_name_opt env s.file_path))
  | .SavedFile data =>
      match data with
      | some result =>
          match result with
          | .ok path =>
              State.add_error (State.set_file_path env s (some path)) (path ++ " saved!")
          | .error e => State.add_error s ("Could not save file: " ++ e)
      | Option.none => State.add_error s "File save aborted. File not saved."

/-- `State::new`: empty content, no file path, empty `prev_path` (the
default `PathBuf`), empty error queue, no task. -/
def State.new : State × Task :=
  (⟨Content.new, Option.none, "", []⟩, Task.none)

/-- The editor placeholder string chosen in `State::view`. -/
def placeholder (s : State) : String :=
  match s.file_path with
  | some _ => "Type here ..."
  | Option.none => "Welcome! Open a file or start typing here ..."

/-- The asynchronous save computation dispatched by a task, when it is a
save task: the completion value (the payload of the resulting
`Message::SavedFile`) together with the effect trace. -/
def saveTaskResult (env : Env) : Task → Option (Option (Except String String) × List Effect)
  | .performSave fp root text => some (save_file env fp root text)
  | .performSaveAs root text name => some (save_file_as env root text name)
  | _ => Option.none

/-- Run a list of messages through the reducer from a given state. -/
def run (env : Env) (s : State) : List Message → State
  | [] => s
  | m :: ms => run env (update env s m).1 ms

/-- A concrete environment used to instantiate the theorems: `/tmp` is
the only directory, `/tmp/a.txt` parses as `a.txt` inside `/tmp`, the
working directory is `/cwd`, writes succeed, and the save dialog always
chooses `/tmp/a.txt`. -/
def env0 : Env :=
  { isDir := fun p => p == "/tmp"
    parent := fun p => if p == "/tmp/a.txt" then some "/tmp" else Option.none
    currentDir := some "/cwd"
    fileName := fun p => if p == "/tmp/a.txt" then some "a.txt" else Option.none
    write := fun _ _ => Except.ok ()
    saveDialog := fun _ _ _ => some "/tmp/a.txt" }

/-- A concrete state holding a saved file, used to instantiate theorems. -/
def sSome : State := ⟨Content.with_text "hello", some "/tmp/a.txt", "/tmp", []⟩

/-- A concrete state with two queued error messages. -/
def sTwoErrors : State := ⟨Content.new, Option.none, "", ["first", "second"]⟩

/-- Whether some prefix of the session's message list leaves the state
with a file path associated: "a document has been associated with a path
during the session". -/
def everAssociated (env : Env) (s : State) (ms : List Message) : Prop :=
  ∃ k, (run env s (ms.take k)).file_path ≠ Option.none

/-- C1: with `FilePath = None`, dispatching `Save` is equivalent to
dispatching `SaveAs`: the states agree, the dispatched save computations
(result and effect trace) agree, the first effect is the save dialog
seeded with `SearchRoot` (so the dialog is requested before any write),
and the completion handling of the result is the same function. -/
theorem save_without_path_equals_save_as (env : Env) (s : State)
    (h : s.file_path = Option.none) :
    (update env s Message.Save).1 = (update env s Message.SaveAs).1 ∧
    saveTaskResult env (update env s Message.Save).2 =
      saveTaskResult env (update env s Message.SaveAs).2 ∧
    (save_file env s.file_path s.prev_path s.content.text).2.head? =
      some (Effect.dialogOpened "Save as ..." (dialogDir env s.prev_path)
        (file_name_opt env s.file_path)) ∧
    (∀ r, update env (update env s Message.Save).1 (Message.SavedFile r) =
      update env (update env s Message.SaveAs).1 (Message.SavedFile r)) := by
  refine ⟨rfl, ?_, ?_, fun r => rfl⟩
  · show some (save_file env s.file_path s.prev_path s.content.text) =
      some (save_file_as env s.prev_path s.content.text (file_name_opt env s.file_path))
    rw [h]
    simp [save_file, file_name_opt]
  · rw [h]
    rcases hd : env.saveDialog "Save as ..." (dialogDir env s.prev_path) Option.none with _ | c <;>
      simp [save_file, save_file_as, file_name_opt, hd]

/-- C1 witness at the initial state (no file path). -/
theorem save_without_path_equals_save_as_witness :
    (save_file env0 State.new.1.file_path State.new.1.prev_path
        State.new.1.content.text).2.head? =
      some (Effect.dialogOpened "Save as ..." (dialogDir env0 State.new.1.prev_path)
        (file_name_opt env0 State.new.1.file_path)) :=
  (save_without_path_equals_save_as env0 State.new.1 rfl).2.2.1

/-- C2: with `FilePath = Some P`, dispatching `Save` leaves the state
unchanged, dispatches the save of the document's current text to `P`,
and the dispatched computation performs exactly one file write (of that
text to `P`) and opens no dialog. -/
theorem save_with_path_writes_directly (env : Env) (s : State) (P : String)
    (h : s.file_path = some P) :
    (update env s Message.Save).1 = s ∧
    (update env s Message.Save).2 = Task.performSave (some P) s.prev_path s.content.text ∧
    save_file env (some P) s.prev_path s.content.text =
      (some ((env.write P s.content.text).map fun _ => P),
       [Effect.fileWritten P s.content.text]) ∧
    (∀ t d n, Effect.dialogOpened t d n ∉
      (save_file env (some P) s.prev_path s.content.text).2) := by
  refine ⟨rfl, ?_, ?_, ?_⟩
  · show Task.performSave s.file_path s.prev_path s.content.text = _
    rw [h]
  · simp [save_file]
  · intro t d n
    simp [save_file]

/-- C2 witness at a concrete saved-file state. -/
theorem save_with_path_writes_directly_witness :
    sSome.file_path = some "/tmp/a.txt" ∧
    save_file env0 (some "/tmp/a.txt") sSome.prev_path sSome.content.text =
      (some ((env0.write "/tmp/a.txt" sSome.content.text).map fun _ => "/tmp/a.txt"),
       [Effect.fileWritten "/tmp/a.txt" sSome.content.text]) :=
  ⟨rfl, (save_with_path_writes_directly env0 sSome "/tmp/a.txt" rfl).2.2.1⟩

/-- C3: after a successful `FileOpened` or `SavedFile` completion for a
path `P`, `file_path = Some P`; and `prev_path` (SearchRoot) becomes `P`
itself if `P` is a directory, else the parent directory of `P` when it
has one. -/
theorem success_sets_path_and_search_root (env : Env) (s : State) (P text d : String) :
    ((update env s (Message.FileOpened (Except.ok text) P)).1.file_path = some P ∧
     (update env s (Message.SavedFile (some (Except.ok P)))).1.file_path = some P) ∧
    (env.isDir P = true →
      (update env s (Message.FileOpened (Except.ok text) P)).1.prev_path = P ∧
      (update env s (Message.SavedFile (some (Except.ok P)))).1.prev_path = P) ∧
    (env.isDir P = false → env.parent P = some d →
      (update env s (Message.FileOpened (Except.ok text) P)).1.prev_path = d ∧
      (update env s (Message.SavedFile (some (Except.ok P)))).1.prev_path = d) := by
  refine ⟨⟨rfl, rfl⟩, ?_, ?_⟩
  · intro h1
    constructor <;> simp [update, State.set_file_path, State.add_error, h1]
  · intro h1 h2
    constructor <;> simp [update, State.set_file_path, State.add_error, h1, h2]

/-- C3 witness: opening `/tmp/a.txt` (a non-directory whose parent is
`/tmp`) sets SearchRoot to `/tmp`. -/
theorem success_sets_path_and_search_root_witness :
    env0.isDir "/tmp/a.txt" = false ∧ env0.parent "/tmp/a.txt" = some "/tmp" ∧
    (update env0 State.new.1 (Message.FileOpened (Except.ok "hello") "/tmp/a.txt")).1.prev_path
      = "/tmp" :=
  ⟨rfl, rfl,
    ((success_sets_path_and_search_root env0 State.new.1 "/tmp/a.txt" "hello" "/tmp").2.2
      rfl rfl).1⟩

/-- C4: `FileOpened` with an error pushes `"Could not open file: {e}"`
at the back of the error queue, leaves content and file path unchanged,
and if the queue was empty its front becomes that string. -/
theorem file_open_error_queues_message (env : Env) (s : State) (e P : String) :
    (update env s (Message.FileOpened (Except.error e) P)).1.error
      = s.error ++ ["Could not open file: " ++ e] ∧
    (update env s (Message.FileOpened (Except.error e) P)).1.content = s.content ∧
    (update env s (Message.FileOpened (Except.error e) P)).1.file_path = s.file_path ∧
    (s.error = [] →
      (update env s (Message.FileOpened (Except.error e) P)).1.error.head?
        = some ("Could not open file: " ++ e)) := by
  refine ⟨rfl, rfl, rfl, ?_⟩
  intro h
  simp [update, State.add_error, h]

/-- C4 witness: the permission-denied scenario from the spec. -/
theorem file_open_error_queues_message_witness :
    (update env0 State.new.1
        (Message.FileOpened (Except.error "permission denied") "/tmp/a.txt")).1.error.head?
      = some ("Could not open file: " ++ "permission denied") :=
  (file_open_error_queues_message env0 State.new.1 "permission denied" "/tmp/a.txt").2.2.2 rfl

/-- C5: `SavedFile` completions: cancellation pushes the abort notice,
success sets the file path, updates SearchRoot and pushes `"{path}
saved!"`, failure pushes `"Could not save file: {e}"`; every push
returns the 4-second expiry task. -/
theorem saved_file_cases (env : Env) (s : State) (P e : String) :
    (update env s (Message.SavedFile Option.none)).1.error
      = s.error ++ ["File save aborted. File not saved."] ∧
    (update env s (Message.SavedFile Option.none)).2 = Task.performSleepRemoveError 4 ∧
    (update env s (Message.SavedFile (some (Except.ok P)))).1.file_path = some P ∧
    (update env s (Message.SavedFile (some (Except.ok P)))).1.error
      = s.error ++ [P ++ " saved!"] ∧
    (update env s (Message.SavedFile (some (Except.ok P)))).2
      = Task.performSleepRemoveError 4 ∧
    (env.isDir P = true →
      (update env s (Message.SavedFile (some (Except.ok P)))).1.prev_path = P) ∧
    (env.isDir P = false → ∀ d, env.parent P = some d →
      (update env s (Message.SavedFile (some (Except.ok P)))).1.prev_path = d) ∧
    (update env s (Message.SavedFile (some (Except.error e)))).1.error
      = s.error ++ ["Could not save file: " ++ e] ∧
    (update env s (Message.SavedFile (some (Except.error e)))).2
      = Task.performSleepRemoveError 4 := by
  refine ⟨rfl, rfl, rfl, rfl, rfl, ?_, ?_, rfl, rfl⟩
  · intro h1
    simp [update, State.set_file_path, State.add_error, h1]
  · intro h1 d h2
    simp [update, State.set_file_path, State.add_error, h1, h2]

/-- C5 witness: a successful save of `/tmp/a.txt` moves SearchRoot to
its parent `/tmp`. -/
theorem saved_file_cases_witness :
    (update env0 State.new.1
        (Message.SavedFile (some (Except.ok "/tmp/a.txt")))).1.prev_path = "/tmp" :=
  (saved_file_cases env0 State.new.1 "/tmp/a.txt" "x").2.2.2.2.2.2.1 rfl "/tmp" rfl

/-- C6: every handler changes the error queue only by keeping it, by
appending one entry at the back, or by dropping the front; `RemoveError`
always takes the tail, so it removes exactly the front entry of a
non-empty queue and is a no-op on an empty one. -/
theorem error_queue_fifo_discipline (env : Env) (s : State) (m : Message) :
    ((update env s m).1.error = s.error ∨
     (∃ x, (update env s m).1.error = s.error ++ [x]) ∨
     (update env s m).1.error = s.error.tail) ∧
    (update env s Message.RemoveError).1.error = s.error.tail ∧
    (∀ x rest, s.error = x :: rest → (update env s Message.RemoveError).1.error = rest) ∧
    (s.error = [] → (update env s Message.RemoveError).1.error = []) := by
  refine ⟨?_, rfl, ?_, ?_⟩
  · cases m with
    | Edit a => exact Or.inl rfl
    | FileOpened r p =>
      cases r with
      | ok t => exact Or.inl rfl
      | error e => exact Or.inr (Or.inl ⟨_, rfl⟩)
    | OpenFileDialog => exact Or.inl rfl
    | OpenFile hd => cases hd <;> exact Or.inl rfl
    | RemoveError => exact Or.inr (Or.inr rfl)
    | New => exact Or.inl rfl
    | Save => exact Or.inl rfl
    | SaveAs => exact Or.inl rfl
    | SavedFile d =>
      match d with
      | some (Except.ok p) => exact Or.inr (Or.inl ⟨_, rfl⟩)
      | some (Except.error e) => exact Or.inr (Or.inl ⟨_, rfl⟩)
      | Option.none => exact Or.inr (Or.inl ⟨_, rfl⟩)
  · intro x rest h
    simp [update, h]
  · intro h
    simp [update, h]

/-- C6 witness: dismissing with two queued errors removes exactly the
front one. -/
theorem error_queue_fifo_discipline_witness :
    (update env0 sTwoErrors Message.RemoveError).1.error = ["second"] :=
  (error_queue_fifo_discipline env0 sTwoErrors Message.RemoveError).2.2.1 "first" ["second"] rfl

/-- C7: `New` resets the document text to empty and the file path to
`None`, while SearchRoot and the error queue are unchanged. -/
theorem new_resets_document_and_path (env : Env) (s : State) :
    (update env s Message.New).1.content.text = "" ∧
    (update env s Message.New).1.file_path = Option.none ∧
    (update env s Message.New).1.prev_path = s.prev_path ∧
    (update env s Message.New).1.error = s.error :=
  ⟨rfl, rfl, rfl, rfl⟩

/-- C8 counterexample: open a file successfully, then `New`.  After the
first message a document has been associated with a path during the
session, yet the final placeholder is the welcome text — so the welcome
text does not appear exactly when no document has ever been associated
with a path. -/
theorem placeholder_welcome_counterexample :
    (run env0 State.new.1
        ([Message.FileOpened (Except.ok "hello") "/tmp/a.txt", Message.New].take 1)).file_path
      = some "/tmp/a.txt" ∧
    placeholder (run env0 State.new.1
        [Message.FileOpened (Except.ok "hello") "/tmp/a.txt", Message.New])
      = "Welcome! Open a file or start typing here ..." := by
  constructor <;> rfl

/-- C8 amended: the placeholder is the welcome text exactly when
`file_path` is currently `None`, and the generic prompt exactly when it
is currently `Some`. -/
theorem placeholder_reflects_current_path (s : State) :
    (placeholder s = "Welcome! Open a file or start typing here ..." ↔
      s.file_path = Option.none) ∧
    (placeholder s = "Type here ..." ↔ s.file_path ≠ Option.none) := by
  cases h : s.file_path <;> simp [placeholder, h]

/-- C9: whenever a handler pushes onto the error queue (the queue
grows), exactly one entry is appended at the back and the returned task
is the single 4-second expiry sleep, a delay within the 4–5 second
range, whose completion `RemoveError` removes the front entry of the
queue. -/
theorem error_push_schedules_expiry (env : Env) (s : State) (m : Message)
    (h : s.error.length < (update env s m).1.error.length) :
    (∃ x, (update env s m).1.error = s.error ++ [x]) ∧
    (update env s m).2 = Task.performSleepRemoveError 4 ∧
    (4 ≤ 4 ∧ 4 ≤ 5) ∧
    (∀ s' : State, (update env s' Message.RemoveError).1.error = s'.error.tail) := by
  have hm : (∃ x, (update env s m).1.error = s.error ++ [x]) ∧
      (update env s m).2 = Task.performSleepRemoveError 4 := by
    cases m with
    | Edit a => simp [update] at h
    | FileOpened r p =>
      cases r with
      | ok t => simp [update, State.set_file_path] at h
      | error e => exact ⟨⟨_, rfl⟩, rfl⟩
    | OpenFileDialog => simp [update] at h
    | OpenFile hd => cases hd <;> simp [update] at h
    | RemoveError =>
      exfalso
      simp [update] at h
      omega
    | New => simp [update, State.set_file_path] at h
    | Save => simp [update] at h
    | SaveAs => simp [update] at h
    | SavedFile d =>
      match d with
      | some (Except.ok p) => exact ⟨⟨_, rfl⟩, rfl⟩
      | some (Except.error e) => exact ⟨⟨_, rfl⟩, rfl⟩
      | Option.none => exact ⟨⟨_, rfl⟩, rfl⟩
  exact ⟨hm.1, hm.2, ⟨le_refl 4, by omega⟩, fun s' => rfl⟩

/-- C9 witness: an aborted save pushes a message and schedules the
4-second expiry. -/
theorem error_push_schedules_expiry_witness :
    (update env0 State.new.1 (Message.SavedFile Option.none)).2
      = Task.performSleepRemoveError 4 :=
  (error_push_schedules_expiry env0 State.new.1 (Message.SavedFile Option.none)
    (by simp [update, State.add_error, State.new])).2.1

/-- C10: a dialog's starting directory is the seed path if it is a
directory, else its parent, else the current working directory; both the
open dialog and the save dialog use this rule; at session start
SearchRoot is the empty path, so (the empty path being neither a
directory nor a path with a parent) the first dialog opens in the
current working directory. -/
theorem dialog_directory_rule (env : Env) (p cwd text : String) (n : Option String) :
    (env.isDir p = true → dialogDir env p = p) ∧
    (env.isDir p = false → ∀ d, env.parent p = some d → dialogDir env p = d) ∧
    (env.isDir p = false → env.parent p = Option.none → env.currentDir = some cwd →
      dialogDir env p = cwd) ∧
    (update env State.new.1 Message.OpenFileDialog).2
      = Task.performPickFile "Open file ..." (dialogDir env "") Option.none ∧
    (save_file_as env p text n).2.head?
      = some (Effect.dialogOpened "Save as ..." (dialogDir env p) n) ∧
    State.new.1.prev_path = "" ∧
    (env.isDir "" = false → env.parent "" = Option.none → env.currentDir = some cwd →
      (update env State.new.1 Message.OpenFileDialog).2
        = Task.performPickFile "Open file ..." cwd Option.none) := by
  refine ⟨?_, ?_, ?_, rfl, ?_, rfl, ?_⟩
  · intro h1
    simp [dialogDir, h1]
  · intro h1 d h2
    simp [dialogDir, h1, h2]
  · intro h1 h2 h3
    simp [dialogDir, h1, h2, h3]
  · rcases hd : env.saveDialog "Save as ..." (dialogDir env p) n with _ | c <;>
      simp [save_file_as, hd]
  · intro h1 h2 h3
    show Task.performPickFile "Open file ..." (dialogDir env "") (file_name_opt env Option.none)
      = _
    simp [dialogDir, file_name_opt, h1, h2, h3]

/-- C10 witness: in `env0` the empty seed path falls through to the
working directory `/cwd` for the first open dialog. -/
theorem dialog_directory_rule_witness :
    (update env0 State.new.1 Message.OpenFileDialog).2
      = Task.performPickFile "Open file ..." "/cwd" Option.none :=
  (dialog_directory_rule env0 "" "/cwd" "t" Option.none).2.2.2.2.2.2 rfl rfl rfl

end FirstIcedApp
